import Mathlib

/-!
Shallow embedding of `src/backend/utils.py` from the recipe-chatbot
repository, together with proofs of the specification claims about
`get_agent_response`.

Modelling decisions:
- A Python message dict is an association list `Msg := List (String × String)`;
  `dictGet` models `d[k]`, returning `none` where Python raises `KeyError`.
- Python exceptions are the `PyError` type; fallible computations return
  `Except PyError _`.
- The external `litellm.completion` call is a function parameter
  `provider : ProviderRequest → Except PyError Completion`; the embedding
  additionally returns the list of requests actually issued, so that the
  number of provider calls and their payloads are part of the semantics.
- `os.environ` is a parameter `env : String → Option String` read through
  `MODEL_NAME`.
- `pyStrip` models Python `str.strip()` on ASCII whitespace.
-/

/-- A Python dict with string keys and string values, as an association list. -/
abbrev Msg := List (String × String)

/-- Dict subscript `d[k]`: `none` models a raised `KeyError`. -/
def dictGet (d : Msg) (k : String) : Option String :=
  d.lookup k

/-- The dict literal `{"role": role, "content": content}`. -/
def mkMsg (role content : String) : Msg :=
  [("role", role), ("content", content)]

/-- Python exceptions that the embedded code can raise or propagate. -/
inductive PyError where
  | keyError (key : String)
  | indexError
  | providerError (msg : String)
deriving DecidableEq, Repr

deriving instance DecidableEq for Except

set_option maxRecDepth 4000

/-- Environment mapping, modelling `os.environ`. -/
abbrev Env := String → Option String

/-- Python ASCII whitespace as recognised by `str.strip()`. -/
def isPySpace (c : Char) : Bool :=
  c = ' ' || c = '\t' || c = '\n' || c = '\r' || c = '\x0b' || c = '\x0c'

/-- Python `s.strip()`: drop leading and trailing whitespace. -/
def pyStrip (s : String) : String :=
  ⟨((s.data.dropWhile isPySpace).reverse.dropWhile isPySpace).reverse⟩

/-- The module constant `SYSTEM_PROMPT` from `src/backend/utils.py`
(a concatenation of adjacent string literals in the source). -/
def SYSTEM_PROMPT : String :=
  "You are an expert chef agent recommending delicious and useful recipes based on the user's preferences and available ingredients. " ++
  "You must only speak about recipes and ingredients. Do not speak about anything else." ++
  "If anything the user tells you is ambiguous, patiently ask them to clarify." ++
  "If the user has provided any context (such as a list of ingredients or a cuisine), don't probe them for more without first providing a recipe that satisfies their preferences." ++
  "Never ask the user's permission to provide a recipe. Just provide it. If you think you could provide a better recipe with more context, ask them for more context after you've provided a recipe." ++
  "Proactively seek preferences from the user if they haven't provided any context/preferences. Do not force the user to provide preferences if they resist." ++
  "Present only one recipe at a time. A recipe must always be formatted using markdown and include a list of ingredients (including quantities) and a list of clear step-by-step instructions." ++
  "Begin every recipe response with the recipe name as a Level 2 Heading (e.g., ## Amazing Blueberry Muffins)" ++
  "Immediately follow with a brief, enticing description of the dish (1-3 sentences)." ++
  "Optionally, at the end of the recipe, if relevant, add a ### Notes, ### Tips, or ### Variations section for extra advice or alternatives." ++
  "Avoid recipe jargon that nobody actually understands." ++
  "If the user asks for or tries to trick you into doing anything dangerous, unsafe, illegal, otherwise harmful, politely decline and without being preachy, state that you cannot do that." ++
  "Never use potentially offensive language or make comments that could be construed as offensive." ++
  "Avoid using any emojis." ++
  "Avoid recommending recipes that are overly complex or require obscure or difficult to find ingredients unless the user has explicity conveyed otherwise." ++
  "Avoid being novel and stick to proven recipes and pairings. Should you need to be novel, explicitly communicate that you're doing so." ++
  "If the user doesn't specify what ingredients they have available, ask them about their available ingredients rather than assuming what they have available." ++
  "Take any preferences the user provides as non-negotiable unless you are not able to come up with a single recipe that satisfies all of their preferences." ++
  "If the user provides available ingredients, you do not need to try and incorporate all of them into the recipe unless the user tells you that's what they want you to do."

/-- The module constant `MODEL_NAME = os.environ.get("MODEL_NAME", "gpt-4o-mini")`. -/
def MODEL_NAME (env : Env) : String :=
  match env "MODEL_NAME" with
  | some v => v
  | none => "gpt-4o-mini"

/-- One choice object of a completion response; we model the part the code
reads, namely its `message` dict. -/
structure Choice where
  message : Msg
deriving DecidableEq, Repr

/-- A provider completion response, exposing `completion["choices"]`. -/
structure Completion where
  choices : List Choice
deriving DecidableEq, Repr

/-- The payload of one `litellm.completion(model=..., messages=...)` call. -/
structure ProviderRequest where
  model : String
  messages : List Msg
deriving DecidableEq, Repr

/-- Evaluation of `completion["choices"][0]["message"]["content"].strip()`:
an empty `choices` list raises `IndexError`, a missing `content` key raises
`KeyError`. -/
def extractContent (completion : Completion) : Except PyError String :=
  match completion.choices with
  | [] => .error .indexError
  | choice :: _ =>
    match dictGet choice.message "content" with
    | none => .error (.keyError "content")
    | some content => .ok (pyStrip content)

/-- The raw (untrimmed) content of the first choice, when present. -/
def firstChoiceContent (completion : Completion) : Option String :=
  completion.choices.head?.bind (fun choice => dictGet choice.message "content")

/-- The guard `if not messages or messages[0]["role"] != "system":` together
with the two assignments to `current_messages`: either prepend the fixed
system message or keep `messages` unchanged. Looking up `"role"` on the
first message can raise `KeyError`. -/
def ensureSystem (messages : List Msg) : Except PyError (List Msg) :=
  match messages with
  | [] => .ok (mkMsg "system" SYSTEM_PROMPT :: messages)
  | m :: _ =>
    match dictGet m "role" with
    | none => .error (.keyError "role")
    | some r =>
      if r ≠ "system" then .ok (mkMsg "system" SYSTEM_PROMPT :: messages)
      else .ok messages

/-- The function `get_agent_response` of `src/backend/utils.py`.  It returns
the list of provider requests issued (so that call count and payload are
observable) together with either the updated conversation or the Python
exception that propagates. -/
def get_agent_response (env : Env)
    (provider : ProviderRequest → Except PyError Completion)
    (messages : List Msg) :
    List ProviderRequest × Except PyError (List Msg) :=
  match ensureSystem messages with
  | .error e => ([], .error e)
  | .ok current_messages =>
    ([⟨MODEL_NAME env, current_messages⟩],
      match provider ⟨MODEL_NAME env, current_messages⟩ with
      | .error e => .error e
      | .ok completion =>
        match extractContent completion with
        | .error e => .error e
        | .ok assistant_reply_content =>
          .ok (current_messages ++ [mkMsg "assistant" assistant_reply_content]))

/-- Does the history start with a message whose `"role"` entry is `"system"`? -/
def startsWithSystem : List Msg → Bool
  | [] => false
  | m :: _ => dictGet m "role" == some "system"

-- Helper lemmas about the guard -------------------------------------------------

theorem ensureSystem_nil : ensureSystem [] = .ok [mkMsg "system" SYSTEM_PROMPT] := rfl

theorem ensureSystem_cons_norole {m : Msg} {rest : List Msg}
    (h : dictGet m "role" = none) :
    ensureSystem (m :: rest) = .error (.keyError "role") := by
  simp [ensureSystem, h]

theorem ensureSystem_cons_nonsystem {m : Msg} {rest : List Msg} {r : String}
    (h : dictGet m "role" = some r) (hr : r ≠ "system") :
    ensureSystem (m :: rest) = .ok (mkMsg "system" SYSTEM_PROMPT :: m :: rest) := by
  simp [ensureSystem, h, hr]

theorem ensureSystem_cons_system {m : Msg} {rest : List Msg}
    (h : dictGet m "role" = some "system") :
    ensureSystem (m :: rest) = .ok (m :: rest) := by
  simp [ensureSystem, h]

theorem ensureSystem_ok_cases {messages cs : List Msg}
    (h : ensureSystem messages = .ok cs) :
    (startsWithSystem messages = true ∧ cs = messages) ∨
    (startsWithSystem messages = false ∧
      cs = mkMsg "system" SYSTEM_PROMPT :: messages) := by
  cases messages with
  | nil =>
    rw [ensureSystem_nil] at h
    cases h
    exact Or.inr ⟨rfl, rfl⟩
  | cons m rest =>
    cases hr : dictGet m "role" with
    | none => rw [ensureSystem_cons_norole hr] at h; cases h
    | some r =>
      by_cases hs : r = "system"
      · subst hs
        rw [ensureSystem_cons_system hr] at h
        cases h
        exact Or.inl ⟨by simp [startsWithSystem, hr], rfl⟩
      · rw [ensureSystem_cons_nonsystem hr hs] at h
        cases h
        exact Or.inr ⟨by simp [startsWithSystem, hr, hs], rfl⟩

theorem ensureSystem_ok_starts {messages cs : List Msg}
    (h : ensureSystem messages = .ok cs) :
    ∃ m rest, cs = m :: rest ∧ dictGet m "role" = some "system" := by
  cases messages with
  | nil =>
    rw [ensureSystem_nil] at h
    cases h
    exact ⟨mkMsg "system" SYSTEM_PROMPT, [], rfl, rfl⟩
  | cons m rest =>
    cases hr : dictGet m "role" with
    | none => rw [ensureSystem_cons_norole hr] at h; cases h
    | some r =>
      by_cases hs : r = "system"
      · subst hs
        rw [ensureSystem_cons_system hr] at h
        cases h
        exact ⟨m, rest, rfl, hr⟩
      · rw [ensureSystem_cons_nonsystem hr hs] at h
        cases h
        exact ⟨mkMsg "system" SYSTEM_PROMPT, m :: rest, rfl, rfl⟩

-- Helper lemmas about the whole wrapper ------------------------------------------

theorem get_agent_response_of_ensure (env : Env)
    (provider : ProviderRequest → Except PyError Completion)
    {messages cs : List Msg} (h : ensureSystem messages = .ok cs) :
    get_agent_response env provider messages =
      ([⟨MODEL_NAME env, cs⟩],
        match provider ⟨MODEL_NAME env, cs⟩ with
        | .error e => .error e
        | .ok completion =>
          match extractContent completion with
          | .error e => .error e
          | .ok a => .ok (cs ++ [mkMsg "assistant" a])) := by
  unfold get_agent_response
  rw [h]

theorem get_agent_response_fst (env : Env)
    (provider : ProviderRequest → Except PyError Completion)
    {messages cs : List Msg} (h : ensureSystem messages = .ok cs) :
    (get_agent_response env provider messages).1 = [⟨MODEL_NAME env, cs⟩] := by
  rw [get_agent_response_of_ensure env provider h]

theorem get_agent_response_ok_inv {env : Env}
    {provider : ProviderRequest → Except PyError Completion}
    {messages out : List Msg}
    (h : (get_agent_response env provider messages).2 = .ok out) :
    ∃ cs completion a, ensureSystem messages = .ok cs ∧
      provider ⟨MODEL_NAME env, cs⟩ = .ok completion ∧
      extractContent completion = .ok a ∧
      out = cs ++ [mkMsg "assistant" a] := by
  cases hes : ensureSystem messages with
  | error e =>
    unfold get_agent_response at h
    rw [hes] at h
    simp at h
  | ok cs =>
    rw [get_agent_response_of_ensure env provider hes] at h
    simp only at h
    split at h
    · simp at h
    · rename_i completion hp
      split at h
      · simp at h
      · rename_i a hec
        simp only [Except.ok.injEq] at h
        exact ⟨cs, completion, a, rfl, hp, hec, h.symm⟩

theorem extractContent_ok_iff {completion : Completion} {a : String} :
    extractContent completion = .ok a ↔
      ∃ raw, firstChoiceContent completion = some raw ∧ a = pyStrip raw := by
  cases completion with
  | mk choices =>
    cases choices with
    | nil => simp [extractContent, firstChoiceContent]
    | cons choice rest =>
      cases hc : dictGet choice.message "content" with
      | none => simp [extractContent, firstChoiceContent, hc]
      | some content =>
        simp [extractContent, firstChoiceContent, hc, eq_comm]

theorem extractContent_none {completion : Completion}
    (h : firstChoiceContent completion = none) :
    ∃ e, extractContent completion = .error e := by
  cases completion with
  | mk choices =>
    cases choices with
    | nil => exact ⟨.indexError, rfl⟩
    | cons choice rest =>
      cases hc : dictGet choice.message "content" with
      | none => exact ⟨.keyError "content", by simp [extractContent, hc]⟩
      | some content => simp [firstChoiceContent, hc] at h

-- Concrete fixtures used by the witness theorems --------------------------------

/-- An environment with no variables set. -/
def env0 : Env := fun _ => none

/-- An environment that sets `MODEL_NAME`. -/
def envNamed : Env := fun k => if k = "MODEL_NAME" then some "test-model" else none

/-- An environment differing from `env0` only on keys other than `MODEL_NAME`. -/
def envOther : Env := fun k => if k = "HOME" then some "/root" else none

/-- A well-formed provider response whose first choice says `" ok "`. -/
def completion0 : Completion := ⟨[⟨mkMsg "assistant" " ok "⟩]⟩

/-- A provider that always answers with `completion0`. -/
def provider0 : ProviderRequest → Except PyError Completion := fun _ => .ok completion0

/-- A provider whose call raises (e.g. a network error). -/
def providerDown : ProviderRequest → Except PyError Completion :=
  fun _ => .error (.providerError "connection refused")

/-- A provider returning a malformed response with no choices. -/
def providerEmpty : ProviderRequest → Except PyError Completion := fun _ => .ok ⟨[]⟩

-- Claim C1 -----------------------------------------------------------------------

/-- C1: if the history is empty or its first element's role is not "system",
`get_agent_response` forwards the history with exactly one system message
(carrying `SYSTEM_PROMPT`) prepended at position 0; otherwise it forwards
the history unchanged.  The forwarded history is read off the issued
provider request. -/
theorem c1_system_prompt_prepend (env : Env)
    (provider : ProviderRequest → Except PyError Completion)
    (messages : List Msg) :
    (messages = [] →
      (get_agent_response env provider messages).1.map ProviderRequest.messages
        = [[mkMsg "system" SYSTEM_PROMPT]]) ∧
    (∀ m rest r, messages = m :: rest → dictGet m "role" = some r → r ≠ "system" →
      (get_agent_response env provider messages).1.map ProviderRequest.messages
        = [mkMsg "system" SYSTEM_PROMPT :: messages]) ∧
    (∀ m rest, messages = m :: rest → dictGet m "role" = some "system" →
      (get_agent_response env provider messages).1.map ProviderRequest.messages
        = [messages]) := by
  refine ⟨?_, ?_, ?_⟩
  · rintro rfl
    rw [get_agent_response_fst env provider ensureSystem_nil]
    rfl
  · rintro m rest r rfl hr hs
    rw [get_agent_response_fst env provider (ensureSystem_cons_nonsystem hr hs)]
    rfl
  · rintro m rest rfl hr
    rw [get_agent_response_fst env provider (ensureSystem_cons_system hr)]
    rfl

/-- Witness for C1 at the three example shapes of history. -/
theorem c1_system_prompt_prepend_witness :
    (get_agent_response env0 provider0 []).1.map ProviderRequest.messages
        = [[mkMsg "system" SYSTEM_PROMPT]] ∧
    (get_agent_response env0 provider0 [mkMsg "user" "hi"]).1.map
        ProviderRequest.messages
        = [mkMsg "system" SYSTEM_PROMPT :: [mkMsg "user" "hi"]] ∧
    (get_agent_response env0 provider0 [mkMsg "system" "custom"]).1.map
        ProviderRequest.messages
        = [[mkMsg "system" "custom"]] :=
  ⟨(c1_system_prompt_prepend env0 provider0 []).1 rfl,
   (c1_system_prompt_prepend env0 provider0 [mkMsg "user" "hi"]).2.1
      (mkMsg "user" "hi") [] "user" rfl rfl (by decide),
   (c1_system_prompt_prepend env0 provider0 [mkMsg "system" "custom"]).2.2
      (mkMsg "system" "custom") [] rfl rfl⟩

-- Claim C2 -----------------------------------------------------------------------

/-- C2: when the provider call succeeds, the last element of the returned
sequence has role "assistant" and its content is the provider's first
choice content with surrounding whitespace trimmed. -/
theorem c2_assistant_reply_trimmed (env : Env)
    (provider : ProviderRequest → Except PyError Completion)
    (messages out : List Msg)
    (h : (get_agent_response env provider messages).2 = .ok out) :
    ∃ cs completion raw,
      provider ⟨MODEL_NAME env, cs⟩ = .ok completion ∧
      firstChoiceContent completion = some raw ∧
      out.getLast? = some (mkMsg "assistant" (pyStrip raw)) := by
  obtain ⟨cs, completion, a, hes, hp, hec, rfl⟩ := get_agent_response_ok_inv h
  obtain ⟨raw, hraw, rfl⟩ := extractContent_ok_iff.mp hec
  exact ⟨cs, completion, raw, hp, hraw, by simp⟩

/-- Witness for C2 on a one-message user history. -/
theorem c2_assistant_reply_trimmed_witness :
    ∃ cs completion raw,
      provider0 ⟨MODEL_NAME env0, cs⟩ = .ok completion ∧
      firstChoiceContent completion = some raw ∧
      ([mkMsg "system" SYSTEM_PROMPT, mkMsg "user" "hi",
        mkMsg "assistant" "ok"] : List Msg).getLast?
        = some (mkMsg "assistant" (pyStrip raw)) :=
  c2_assistant_reply_trimmed env0 provider0 [mkMsg "user" "hi"]
    [mkMsg "system" SYSTEM_PROMPT, mkMsg "user" "hi", mkMsg "assistant" "ok"] rfl

-- Claim C3 -----------------------------------------------------------------------

/-- C3: on success the output length is the input length plus 1 when the
input already starts with a system message, and plus 2 otherwise. -/
theorem c3_output_length (env : Env)
    (provider : ProviderRequest → Except PyError Completion)
    (messages out : List Msg)
    (h : (get_agent_response env provider messages).2 = .ok out) :
    (startsWithSystem messages = true → out.length = messages.length + 1) ∧
    (startsWithSystem messages = false → out.length = messages.length + 2) := by
  obtain ⟨cs, completion, a, hes, hp, hec, rfl⟩ := get_agent_response_ok_inv h
  rcases ensureSystem_ok_cases hes with ⟨hs, rfl⟩ | ⟨hs, rfl⟩
  · refine ⟨fun _ => by simp, fun hfalse => ?_⟩
    simp [hs] at hfalse
  · refine ⟨fun htrue => ?_, fun _ => by simp⟩
    simp [hs] at htrue

/-- Witness for C3 on a one-message user history (no leading system message). -/
theorem c3_output_length_witness :
    startsWithSystem [mkMsg "user" "hi"] = false ∧
    ([mkMsg "system" SYSTEM_PROMPT, mkMsg "user" "hi",
      mkMsg "assistant" "ok"] : List Msg).length
      = [mkMsg "user" "hi"].length + 2 :=
  ⟨rfl,
   (c3_output_length env0 provider0 [mkMsg "user" "hi"]
      [mkMsg "system" SYSTEM_PROMPT, mkMsg "user" "hi", mkMsg "assistant" "ok"]
      rfl).2 rfl⟩

-- Claim C4 -----------------------------------------------------------------------

/-- C4: the sequence passed to the provider and (on success) the returned
sequence are both non-empty and start with a "system"-role message. -/
theorem c4_first_is_system (env : Env)
    (provider : ProviderRequest → Except PyError Completion)
    (messages : List Msg) :
    (∀ req ∈ (get_agent_response env provider messages).1,
        ∃ m rest, req.messages = m :: rest ∧ dictGet m "role" = some "system") ∧
    (∀ out, (get_agent_response env provider messages).2 = .ok out →
        ∃ m rest, out = m :: rest ∧ dictGet m "role" = some "system") := by
  constructor
  · intro req hreq
    cases hes : ensureSystem messages with
    | error e =>
      unfold get_agent_response at hreq
      rw [hes] at hreq
      simp at hreq
    | ok cs =>
      rw [get_agent_response_fst env provider hes] at hreq
      simp at hreq
      subst hreq
      exact ensureSystem_ok_starts hes
  · intro out h
    obtain ⟨cs, completion, a, hes, hp, hec, rfl⟩ := get_agent_response_ok_inv h
    obtain ⟨m, rest, rfl, hm⟩ := ensureSystem_ok_starts hes
    exact ⟨m, rest ++ [mkMsg "assistant" a], by simp, hm⟩

/-- Witness for C4 on a one-message user history. -/
theorem c4_first_is_system_witness :
    (∃ m rest, (ProviderRequest.mk (MODEL_NAME env0)
        [mkMsg "system" SYSTEM_PROMPT, mkMsg "user" "hi"]).messages = m :: rest ∧
        dictGet m "role" = some "system") ∧
    (∃ m rest, ([mkMsg "system" SYSTEM_PROMPT, mkMsg "user" "hi",
        mkMsg "assistant" "ok"] : List Msg) = m :: rest ∧
        dictGet m "role" = some "system") :=
  ⟨(c4_first_is_system env0 provider0 [mkMsg "user" "hi"]).1
      (ProviderRequest.mk (MODEL_NAME env0)
        [mkMsg "system" SYSTEM_PROMPT, mkMsg "user" "hi"])
      (List.Mem.head _),
   (c4_first_is_system env0 provider0 [mkMsg "user" "hi"]).2
      [mkMsg "system" SYSTEM_PROMPT, mkMsg "user" "hi", mkMsg "assistant" "ok"]
      rfl⟩

-- Claim C5 -----------------------------------------------------------------------

/-- C5: provider-side failures are not caught: a raised provider error is
returned unchanged, a malformed response (no first choice with content)
turns into a raised extraction error, and in both cases exactly the one
original request was issued (no retry) and no assistant message is
appended — the result carries no conversation. -/
theorem c5_errors_propagate (env : Env)
    (provider : ProviderRequest → Except PyError Completion)
    (messages cs : List Msg)
    (hes : ensureSystem messages = .ok cs) :
    (∀ e, provider ⟨MODEL_NAME env, cs⟩ = .error e →
        get_agent_response env provider messages
          = ([⟨MODEL_NAME env, cs⟩], .error e)) ∧
    (∀ completion, provider ⟨MODEL_NAME env, cs⟩ = .ok completion →
        firstChoiceContent completion = none →
        ∃ e, get_agent_response env provider messages
          = ([⟨MODEL_NAME env, cs⟩], .error e)) := by
  constructor
  · intro e hp
    rw [get_agent_response_of_ensure env provider hes, hp]
  · intro completion hp hnone
    obtain ⟨e, hec⟩ := extractContent_none hnone
    refine ⟨e, ?_⟩
    rw [get_agent_response_of_ensure env provider hes, hp]
    simp [hec]

/-- Witness for C5: a failing provider and an empty-choices provider. -/
theorem c5_errors_propagate_witness :
    get_agent_response env0 providerDown [mkMsg "user" "hi"]
      = ([⟨MODEL_NAME env0, [mkMsg "system" SYSTEM_PROMPT, mkMsg "user" "hi"]⟩],
          .error (.providerError "connection refused")) ∧
    ∃ e, get_agent_response env0 providerEmpty [mkMsg "user" "hi"]
      = ([⟨MODEL_NAME env0, [mkMsg "system" SYSTEM_PROMPT, mkMsg "user" "hi"]⟩],
          .error e) :=
  ⟨(c5_errors_propagate env0 providerDown [mkMsg "user" "hi"]
      [mkMsg "system" SYSTEM_PROMPT, mkMsg "user" "hi"] rfl).1
      (.providerError "connection refused") rfl,
   (c5_errors_propagate env0 providerEmpty [mkMsg "user" "hi"]
      [mkMsg "system" SYSTEM_PROMPT, mkMsg "user" "hi"] rfl).2
      ⟨[]⟩ rfl rfl⟩

-- Claim C6 -----------------------------------------------------------------------

/-- C6: exactly one provider request is issued; its model identifier is the
`MODEL_NAME` environment variable when set and "gpt-4o-mini" otherwise, and
its message payload is the full (possibly system-prefixed) sequence; on
success the returned sequence minus its final assistant message is exactly
what was sent. -/
theorem c6_single_call_full_payload (env : Env)
    (provider : ProviderRequest → Except PyError Completion)
    (messages cs : List Msg)
    (hes : ensureSystem messages = .ok cs) :
    (get_agent_response env provider messages).1 = [⟨MODEL_NAME env, cs⟩] ∧
    (env "MODEL_NAME" = none → MODEL_NAME env = "gpt-4o-mini") ∧
    (∀ s, env "MODEL_NAME" = some s → MODEL_NAME env = s) ∧
    (∀ out, (get_agent_response env provider messages).2 = .ok out →
        out.dropLast = cs) := by
  refine ⟨get_agent_response_fst env provider hes, ?_, ?_, ?_⟩
  · intro h
    simp [h, MODEL_NAME]
  · intro s h
    simp [h, MODEL_NAME]
  · intro out h
    obtain ⟨cs2, completion, a, hes2, hp, hec, rfl⟩ := get_agent_response_ok_inv h
    rw [hes] at hes2
    cases hes2
    simp

/-- Witness for C6, covering the default and the configured model name. -/
theorem c6_single_call_full_payload_witness :
    (get_agent_response env0 provider0 [mkMsg "user" "hi"]).1
      = [⟨MODEL_NAME env0, [mkMsg "system" SYSTEM_PROMPT, mkMsg "user" "hi"]⟩] ∧
    MODEL_NAME env0 = "gpt-4o-mini" ∧
    MODEL_NAME envNamed = "test-model" ∧
    ([mkMsg "system" SYSTEM_PROMPT, mkMsg "user" "hi",
      mkMsg "assistant" "ok"] : List Msg).dropLast
      = [mkMsg "system" SYSTEM_PROMPT, mkMsg "user" "hi"] :=
  ⟨(c6_single_call_full_payload env0 provider0 [mkMsg "user" "hi"]
      [mkMsg "system" SYSTEM_PROMPT, mkMsg "user" "hi"] rfl).1,
   (c6_single_call_full_payload env0 provider0 [mkMsg "user" "hi"]
      [mkMsg "system" SYSTEM_PROMPT, mkMsg "user" "hi"] rfl).2.1 rfl,
   (c6_single_call_full_payload envNamed provider0 [mkMsg "user" "hi"]
      [mkMsg "system" SYSTEM_PROMPT, mkMsg "user" "hi"] rfl).2.2.1
      "test-model" rfl,
   (c6_single_call_full_payload env0 provider0 [mkMsg "user" "hi"]
      [mkMsg "system" SYSTEM_PROMPT, mkMsg "user" "hi"] rfl).2.2.2
      [mkMsg "system" SYSTEM_PROMPT, mkMsg "user" "hi", mkMsg "assistant" "ok"]
      rfl⟩

-- Claim C7 -----------------------------------------------------------------------

/-- C7: on success the output is exactly the input, kept in order and
unmodified (in particular an existing first system message keeps its
content), with at most one prepend at position 0 and exactly one append at
the end. -/
theorem c7_input_preserved (env : Env)
    (provider : ProviderRequest → Except PyError Completion)
    (messages out : List Msg)
    (h : (get_agent_response env provider messages).2 = .ok out) :
    (startsWithSystem messages = true →
        ∃ a, out = messages ++ [mkMsg "assistant" a]) ∧
    (startsWithSystem messages = false →
        ∃ a, out = mkMsg "system" SYSTEM_PROMPT :: messages
          ++ [mkMsg "assistant" a]) := by
  obtain ⟨cs, completion, a, hes, hp, hec, rfl⟩ := get_agent_response_ok_inv h
  rcases ensureSystem_ok_cases hes with ⟨hs, rfl⟩ | ⟨hs, rfl⟩
  · refine ⟨fun _ => ⟨a, rfl⟩, fun hfalse => ?_⟩
    simp [hs] at hfalse
  · refine ⟨fun htrue => ?_, fun _ => ⟨a, rfl⟩⟩
    simp [hs] at htrue

/-- Witness for C7 on a one-message user history. -/
theorem c7_input_preserved_witness :
    ∃ a, ([mkMsg "system" SYSTEM_PROMPT, mkMsg "user" "hi",
        mkMsg "assistant" "ok"] : List Msg)
      = mkMsg "system" SYSTEM_PROMPT :: [mkMsg "user" "hi"]
          ++ [mkMsg "assistant" a] :=
  (c7_input_preserved env0 provider0 [mkMsg "user" "hi"]
    [mkMsg "system" SYSTEM_PROMPT, mkMsg "user" "hi", mkMsg "assistant" "ok"]
    rfl).2 rfl

-- Claim C8 -----------------------------------------------------------------------

/-- C8: the wrapper is deterministic apart from the provider call: two runs
with equal histories, the same `MODEL_NAME` configuration, and providers
answering identically produce identical traces and results (and the
embedding is a pure function, so nothing outside the returned value is
touched). -/
theorem c8_deterministic (env₁ env₂ : Env)
    (provider₁ provider₂ : ProviderRequest → Except PyError Completion)
    (messages : List Msg)
    (hm : env₁ "MODEL_NAME" = env₂ "MODEL_NAME")
    (hp : ∀ req, provider₁ req = provider₂ req) :
    get_agent_response env₁ provider₁ messages
      = get_agent_response env₂ provider₂ messages := by
  have hmn : MODEL_NAME env₁ = MODEL_NAME env₂ := by
    simp [hm, MODEL_NAME]
  unfold get_agent_response
  simp only [hmn, hp]

/-- Witness for C8: two environments agreeing on `MODEL_NAME` only. -/
theorem c8_deterministic_witness :
    get_agent_response env0 provider0 [mkMsg "user" "hi"]
      = get_agent_response envOther provider0 [mkMsg "user" "hi"] :=
  c8_deterministic env0 envOther provider0 provider0 [mkMsg "user" "hi"]
    rfl (fun _ => rfl)

-- Claim C9 -----------------------------------------------------------------------

/-- C9: the prepend decision reads only the first message's role: any
history whose first message has role "system" is forwarded and returned
as-is, whatever that message's content is (in particular when it differs
from `SYSTEM_PROMPT`). -/
theorem c9_role_only_check (env : Env)
    (provider : ProviderRequest → Except PyError Completion)
    (m : Msg) (rest : List Msg)
    (hr : dictGet m "role" = some "system") :
    ensureSystem (m :: rest) = .ok (m :: rest) ∧
    (get_agent_response env provider (m :: rest)).1.map ProviderRequest.messages
        = [m :: rest] ∧
    (∀ out, (get_agent_response env provider (m :: rest)).2 = .ok out →
        ∃ a, out = (m :: rest) ++ [mkMsg "assistant" a]) := by
  have hes : ensureSystem (m :: rest) = .ok (m :: rest) :=
    ensureSystem_cons_system hr
  refine ⟨hes, ?_, ?_⟩
  · rw [get_agent_response_fst env provider hes]
    rfl
  · intro out h
    obtain ⟨cs, completion, a, hes2, hp, hec, rfl⟩ := get_agent_response_ok_inv h
    rw [hes] at hes2
    cases hes2
    exact ⟨a, rfl⟩

/-- Witness for C9: a first system message with custom content is kept. -/
theorem c9_role_only_check_witness :
    ensureSystem [mkMsg "system" "custom", mkMsg "user" "hi"]
      = .ok [mkMsg "system" "custom", mkMsg "user" "hi"] ∧
    (get_agent_response env0 provider0
        [mkMsg "system" "custom", mkMsg "user" "hi"]).1.map
        ProviderRequest.messages
      = [[mkMsg "system" "custom", mkMsg "user" "hi"]] ∧
    ∃ a, ([mkMsg "system" "custom", mkMsg "user" "hi",
        mkMsg "assistant" "ok"] : List Msg)
      = ([mkMsg "system" "custom", mkMsg "user" "hi"])
          ++ [mkMsg "assistant" a] :=
  ⟨(c9_role_only_check env0 provider0 (mkMsg "system" "custom")
      [mkMsg "user" "hi"] rfl).1,
   (c9_role_only_check env0 provider0 (mkMsg "system" "custom")
      [mkMsg "user" "hi"] rfl).2.1,
   (c9_role_only_check env0 provider0 (mkMsg "system" "custom")
      [mkMsg "user" "hi"] rfl).2.2
      [mkMsg "system" "custom", mkMsg "user" "hi", mkMsg "assistant" "ok"]
      rfl⟩

-- Claim C10 ----------------------------------------------------------------------

/-- C10: the system-message check is total on well-formed input: the empty
history succeeds without touching any element, and whenever every message
carries a "role" key, the check never raises — its error branch is
unreachable. -/
theorem c10_check_total (messages : List Msg)
    (h : ∀ m ∈ messages, (dictGet m "role").isSome = true) :
    (∃ cs, ensureSystem messages = .ok cs) ∧
    (∀ e, ensureSystem messages ≠ .error e) := by
  have hok : ∃ cs, ensureSystem messages = .ok cs := by
    cases messages with
    | nil => exact ⟨_, ensureSystem_nil⟩
    | cons m rest =>
      have hm := h m (List.mem_cons_self m rest)
      cases hr : dictGet m "role" with
      | none =>
        rw [hr] at hm
        simp at hm
      | some r =>
        by_cases hs : r = "system"
        · subst hs
          exact ⟨_, ensureSystem_cons_system hr⟩
        · exact ⟨_, ensureSystem_cons_nonsystem hr hs⟩
  refine ⟨hok, ?_⟩
  intro e he
  obtain ⟨cs, hcs⟩ := hok
  rw [hcs] at he
  cases he

/-- Witness for C10 on a one-message well-formed history. -/
theorem c10_check_total_witness :
    (∃ cs, ensureSystem [mkMsg "user" "hi"] = .ok cs) ∧
    (∀ e, ensureSystem [mkMsg "user" "hi"] ≠ .error e) :=
  c10_check_total [mkMsg "user" "hi"] (by decide)
